import Mathlib

/-!
Verification of the money4band repository: the capability detector
(src/utils/detect.py) and the stack launcher (src/utils/fn_startStack.py).

Python values that flow through the configuration are modelled by a JSON
value type; Python exceptions by an explicit exception type; the
side-effecting launcher by a trace of structured events, one constructor
per effectful source line, together with an `Option PyExc` telling whether
an exception propagates out of the modelled function.
-/

/-- A JSON-like Python value: what `json.loads` produces (dicts, lists,
strings, numbers, booleans, None). Python `None` is `Json.null`. -/
inductive Json where
  | null : Json
  | bool (b : Bool) : Json
  | num (n : Int) : Json
  | str (s : String) : Json
  | arr (elems : List Json) : Json
  | dict (entries : List (String × Json)) : Json

/-- Python exceptions that the modelled code can raise or catch. -/
inductive PyExc where
  | attributeError (msg : String) : PyExc
  | typeError (msg : String) : PyExc
  | keyError (msg : String) : PyExc
  | fileNotFound (msg : String) : PyExc
  | jsonDecode (msg : String) : PyExc
  | eofError (msg : String) : PyExc
  | other (msg : String) : PyExc
deriving DecidableEq, Repr

/-- The `str(e)` of an exception, as used in log messages. -/
def PyExc.msg : PyExc → String
  | .attributeError m => m
  | .typeError m => m
  | .keyError m => m
  | .fileNotFound m => m
  | .jsonDecode m => m
  | .eofError m => m
  | .other m => m

/-- Reduction of the Except monad's bind on a normal value. -/
@[simp] theorem pyBind_ok {α β : Type} (x : α) (f : α → Except PyExc β) :
    (Except.ok x >>= f : Except PyExc β) = f x := rfl

/-- Reduction of the Except monad's bind on a raised exception. -/
@[simp] theorem pyBind_error {α β : Type} (e : PyExc)
    (f : α → Except PyExc β) :
    (Except.error e >>= f : Except PyExc β) = Except.error e := rfl

/-- Reduction of the Except monad's map on a normal value. -/
@[simp] theorem pyMap_ok {α β : Type} (x : α) (f : α → β) :
    (f <$> Except.ok x : Except PyExc β) = Except.ok (f x) := rfl

/-- Reduction of the Except monad's map on a raised exception. -/
@[simp] theorem pyMap_error {α β : Type} (e : PyExc) (f : α → β) :
    (f <$> Except.error e : Except PyExc β) = Except.error e := rfl

/-- Python `d.get(k)` (default `None`): on a dict, the value bound to the
first occurrence of `k`, or `None` when `k` is absent; on any non-dict
value (including `None`) the attribute access raises `AttributeError`. -/
def Json.pyGet : Json → String → Except PyExc Json
  | .dict es, k => .ok ((List.lookup k es).getD .null)
  | _, _ => .error (.attributeError "object has no attribute get")

/-- Python `d.get(k, default)`: like `pyGet` but with an explicit default. -/
def Json.pyGetD : Json → String → Json → Except PyExc Json
  | .dict es, k, d => .ok ((List.lookup k es).getD d)
  | _, _, _ => .error (.attributeError "object has no attribute get")

/-- Python `d[k]` on a JSON value: `KeyError` when the key is absent from a
dict, `TypeError` when the value is not subscriptable by a string. -/
def Json.pySubscript : Json → String → Except PyExc Json
  | .dict es, k =>
      match List.lookup k es with
      | some v => .ok v
      | none => .error (.keyError k)
  | _, _ => .error (.typeError "object is not subscriptable")

/-- Python truthiness of a JSON value: `None`, `False`, `0`, the empty
string, the empty list and the empty dict are falsy. -/
def Json.truthy : Json → Bool
  | .null => false
  | .bool b => b
  | .num n => n != 0
  | .str s => !(s == "")
  | .arr xs => !xs.isEmpty
  | .dict es => !es.isEmpty

/-- Python `s.lower()` restricted to the ASCII range, the range raw
platform strings live in. -/
def pyLower (s : String) : String := String.mk (s.data.map Char.toLower)

/-- Modelled from the spec: `load_json_config` (module `utils/load.py`, not
in the repository sources) accepts a path or an already-parsed document and
returns the configuration document; for an in-memory document it returns
it unchanged. The detector is analysed on in-memory documents, so the model
is the identity. -/
def load_json_config (m4b_config_path_or_dict : Json) : Json :=
  m4b_config_path_or_dict

/-- `detect_os` from src/utils/detect.py, as a function of the loaded
configuration document and the raw `platform.system()` string of the host.
The `try/except` logs and re-raises, so an exception inside the body
propagates: it is the `.error` case. -/
def detect_os (m4b_config_path_or_dict : Json) (platform_system : String) :
    Except PyExc Json := do
  let m4b_config := load_json_config m4b_config_path_or_dict
  let sys_val ← m4b_config.pyGet "system"
  let os_map ← sys_val.pyGet "os_map"
  let os_type := pyLower platform_system
  let os_type ← os_map.pyGetD os_type (.str "unknown")
  pure (.dict [("os_type", os_type)])

/-- `detect_architecture` from src/utils/detect.py, as a function of the
loaded configuration document and the raw `platform.machine()` string. -/
def detect_architecture (m4b_config_path_or_dict : Json)
    (platform_machine : String) : Except PyExc Json := do
  let m4b_config := load_json_config m4b_config_path_or_dict
  let sys_val ← m4b_config.pyGet "system"
  let arch_map ← sys_val.pyGet "arch_map"
  let arch := pyLower platform_machine
  let dkarch ← arch_map.pyGetD arch (.str "unknown")
  pure (.dict [("arch", .str arch), ("dkarch", dkarch)])

/-- One call into the detect module: either `detect_os` or
`detect_architecture`, with its configuration document and the host's raw
platform string. -/
inductive DetectCall where
  | os (cfg : Json) (raw : String) : DetectCall
  | arch (cfg : Json) (raw : String) : DetectCall

/-- The result of a single detect-module call. -/
def runDetectCall : DetectCall → Except PyExc Json
  | .os cfg raw => detect_os cfg raw
  | .arch cfg raw => detect_architecture cfg raw

/-- A sequence of detect-module calls executed one after the other. The
module detect.py keeps no mutable state between calls (no globals beyond the
logging handle, no cache), so the sequential execution threads no state:
each call is evaluated on its own arguments. -/
def runDetectCalls (calls : List DetectCall) : List (Except PyExc Json) :=
  calls.map runDetectCall

/-- The outcome of the `subprocess.run(["docker", "compose", ...], check=True)`
call: normal completion with captured stdout, a non-zero exit
(`CalledProcessError` carrying the captured stderr), or any other exception
raised by the attempt (for example the docker binary missing). -/
inductive LaunchOutcome where
  | success (stdout : String) : LaunchOutcome
  | calledProcessError (stderr : String) : LaunchOutcome
  | exc (e : PyExc) : LaunchOutcome

/-- The external collaborators of fn_startStack.py, whose code is outside
this repository: the confirmation prompt (which reads stdin and can raise),
the orchestration command, the dashboard-URL generator (which can raise) and
the JSON configuration loader. -/
structure StackEnv where
  ask_question_yn : String → Except PyExc Bool
  compose_up : String → String → LaunchOutcome
  generate_dashboard_urls : String → Except PyExc Unit
  load_config : String → Except PyExc Json

/-- The filesystem as the launcher observes it: `os.path.isdir`,
`os.listdir` and `os.path.isfile`. -/
structure FS where
  isdir : String → Bool
  listdir : String → List String
  isfile : String → Bool

/-- `os.path.join` on POSIX. -/
def pathJoin (a b : String) : String := a ++ "/" ++ b

/-- The confirmation prompt text of `start_stack`. -/
def confirmPrompt (instance_name : String) : String :=
  "This will launch all the apps for '" ++ instance_name ++
  "' instance using the configured .env file and the docker-compose.yaml file (Docker must be already installed and running). Do you wish to proceed?"

/-- One trace event per effectful line of src/utils/fn_startStack.py. The
string arguments carry the data interpolated into the printed or logged
message of that line. -/
inductive Event where
  | logStartStack (compose_file env_file instance_name : String) : Event
  | fixConsole : Event
  | ask (prompt : String) : Event
  | printCancel (instance_name : String) : Event
  | sleep2 : Event
  | composeUp (compose_file env_file : String) : Event
  | printSuccess (instance_name : String) : Event
  | logStdout (s : String) : Event
  | genDashboard (env_file : String) : Event
  | printClaimHint : Event
  | printComposeError (instance_name : String) : Event
  | logStderr (s : String) : Event
  | printUnexpected (instance_name : String) : Event
  | logUnexpected (msg : String) : Event
  | printStartingMulti : Event
  | logFailedInstance (instance_name msg : String) : Event
  | printAllMultiStarted : Event
  | logWarnNoDir (instances_dir : String) : Event
  | logFileNotFound (msg : String) : Event
  | printFileNotFound (msg : String) : Event
  | logJsonError (msg : String) : Event
  | printJsonError (msg : String) : Event
  | logMainUnexpected (msg : String) : Event
  | printMainUnexpected (msg : String) : Event
  | logScriptStart : Event
  | logScriptCompleted : Event
  | logCliFileNotFound (msg : String) : Event
  | logCliJsonError (msg : String) : Event
  | logCliUnexpected (msg : String) : Event
deriving DecidableEq, Repr

/-- The `try` block of `start_stack` (lines 31-53): run the compose command;
on success log stdout, generate the dashboard URLs and print the claiming
hint; a `CalledProcessError` and any other exception are each caught,
reported to the operator and logged, and the function returns normally.
`evs` is the trace accumulated before the block. -/
def start_stack_try (env : StackEnv) (compose_file env_file instance_name : String)
    (evs : List Event) : List Event × Option PyExc :=
  match env.compose_up compose_file env_file with
  | .success out =>
      let evs1 := evs ++ [Event.composeUp compose_file env_file,
        Event.printSuccess instance_name, Event.sleep2, Event.logStdout out]
      match env.generate_dashboard_urls env_file with
      | .ok _ =>
          (evs1 ++ [Event.genDashboard env_file, Event.printClaimHint,
            Event.sleep2], none)
      | .error e =>
          (evs1 ++ [Event.genDashboard env_file,
            Event.printUnexpected instance_name, Event.logUnexpected e.msg,
            Event.sleep2], none)
  | .calledProcessError stderr =>
      (evs ++ [Event.composeUp compose_file env_file,
        Event.printComposeError instance_name, Event.logStderr stderr,
        Event.sleep2], none)
  | .exc e =>
      (evs ++ [Event.composeUp compose_file env_file,
        Event.printUnexpected instance_name, Event.logUnexpected e.msg,
        Event.sleep2], none)

/-- `start_stack` from src/utils/fn_startStack.py. The confirmation prompt
is outside the `try`, so an exception it raises propagates (second
component `some e`); once the confirmation is given or skipped, the launch
attempt runs inside the `try` and never propagates. -/
def start_stack (env : StackEnv) (compose_file env_file instance_name : String)
    (skip_questions : Bool) : List Event × Option PyExc :=
  let evs := [Event.logStartStack compose_file env_file instance_name,
    Event.fixConsole]
  if skip_questions then
    start_stack_try env compose_file env_file instance_name evs
  else
    match env.ask_question_yn (confirmPrompt instance_name) with
    | .error e => (evs ++ [Event.ask (confirmPrompt instance_name)], some e)
    | .ok false =>
        (evs ++ [Event.ask (confirmPrompt instance_name),
          Event.printCancel instance_name, Event.sleep2], none)
    | .ok true =>
        start_stack_try env compose_file env_file instance_name
          (evs ++ [Event.ask (confirmPrompt instance_name)])

/-- The guard of line 70: the directory entry holds both a
docker-compose.yaml file and a .env file. -/
def isValidInstance (fs : FS) (instances_dir inst : String) : Bool :=
  fs.isfile (pathJoin (pathJoin instances_dir inst) "docker-compose.yaml") &&
  fs.isfile (pathJoin (pathJoin instances_dir inst) ".env")

/-- The trace contributed by one directory entry of the instances loop
(lines 66-74): entries holding both a compose file and an env file get a
`start_stack` call whose exceptions are caught and logged (`logFailedInstance`);
other entries contribute nothing. -/
def perInstanceTrace (fs : FS) (env : StackEnv) (instances_dir : String)
    (skip_questions : Bool) (inst : String) : List Event :=
  let instance_dir := pathJoin instances_dir inst
  let compose_file := pathJoin instance_dir "docker-compose.yaml"
  let env_file := pathJoin instance_dir ".env"
  if isValidInstance fs instances_dir inst then
    let r := start_stack env compose_file env_file inst skip_questions
    r.1 ++
      (match r.2 with
        | none => []
        | some e => [Event.logFailedInstance inst e.msg])
  else []

/-- The `for instance in os.listdir(instances_dir)` loop of
`start_multi_proxy_instances`, one entry after the other. -/
def multiLoop (fs : FS) (env : StackEnv) (instances_dir : String)
    (skip_questions : Bool) : List String → List Event
  | [] => []
  | inst :: rest =>
      perInstanceTrace fs env instances_dir skip_questions inst ++
        multiLoop fs env instances_dir skip_questions rest

/-- `start_multi_proxy_instances` from src/utils/fn_startStack.py. -/
def start_multi_proxy_instances (fs : FS) (env : StackEnv)
    (instances_dir : String) (skip_questions : Bool) :
    List Event × Option PyExc :=
  if fs.isdir instances_dir then
    (Event.printStartingMulti ::
      (multiLoop fs env instances_dir skip_questions (fs.listdir instances_dir) ++
        [Event.printAllMultiStarted]), none)
  else
    ([Event.logWarnNoDir instances_dir], none)

/-- The directory entries of `instances_dir` that hold both a
docker-compose.yaml file and a .env file, in listing order. -/
def validInstances (fs : FS) (instances_dir : String) : List String :=
  (fs.listdir instances_dir).filter (isValidInstance fs instances_dir)

/-- The instance names for which a `start_stack` call was made, in order:
`start_stack` unconditionally logs its starting line first, exactly once. -/
def attemptedInstances (evs : List Event) : List String :=
  evs.filterMap fun e =>
    match e with
    | Event.logStartStack _ _ inst => some inst
    | _ => none

/-- The compose invocations in a trace, in order. -/
def composeUps (evs : List Event) : List (String × String) :=
  evs.filterMap fun e =>
    match e with
    | Event.composeUp cf ef => some (cf, ef)
    | _ => none

/-- Whether the launch attempt for the given files fails: the compose
command does not complete normally, or the dashboard-URL generation run
after a successful launch raises. -/
def launchFails (env : StackEnv) (compose_file env_file : String) : Bool :=
  match env.compose_up compose_file env_file with
  | .success _ =>
      match env.generate_dashboard_urls env_file with
      | .ok _ => false
      | .error _ => true
  | .calledProcessError _ => true
  | .exc _ => true

/-- The operator-facing failure reports of `start_stack` (the red prints of
lines 47 and 51). -/
def isFailureReportPrint : Event → Bool
  | .printComposeError _ => true
  | .printUnexpected _ => true
  | _ => false

/-- The log-facing failure reports of `start_stack` (the `logging.error`
calls of lines 48 and 52). -/
def isFailureLog : Event → Bool
  | .logStderr _ => true
  | .logUnexpected _ => true
  | _ => false

/-- The spec's example configuration: os_map maps linux to lin and darwin
to mac, arch_map maps x86_64 to amd64 and arm64 to arm64. -/
def exampleConfig : Json :=
  .dict [("system", .dict [
    ("os_map", .dict [("linux", .str "lin"), ("darwin", .str "mac")]),
    ("arch_map", .dict [("x86_64", .str "amd64"), ("arm64", .str "arm64")])])]

/-- C1: for every configuration whose system.os_map exists, detect_os
returns the mapped value for the lower-cased host OS name when it is a key
of os_map, and the literal label unknown when it is not. -/
theorem detect_os_spec (cfg sys_val : Json) (omap : List (String × Json))
    (s : String)
    (hs : cfg.pyGet "system" = .ok sys_val)
    (ho : sys_val.pyGet "os_map" = .ok (.dict omap)) :
    (∀ v, List.lookup (pyLower s) omap = some v →
      detect_os cfg s = .ok (.dict [("os_type", v)])) ∧
    (List.lookup (pyLower s) omap = none →
      detect_os cfg s = .ok (.dict [("os_type", .str "unknown")])) := by
  constructor
  · intro v hv
    simp [detect_os, load_json_config, hs, ho, Json.pyGetD, hv]
  · intro hn
    simp [detect_os, load_json_config, hs, ho, Json.pyGetD, hn]

theorem detect_os_spec_witness :
    detect_os exampleConfig "Linux" = .ok (.dict [("os_type", .str "lin")]) ∧
    detect_os exampleConfig "Haiku" = .ok (.dict [("os_type", .str "unknown")]) :=
  ⟨(detect_os_spec exampleConfig
      (.dict [("os_map", .dict [("linux", .str "lin"), ("darwin", .str "mac")]),
        ("arch_map", .dict [("x86_64", .str "amd64"), ("arm64", .str "arm64")])])
      [("linux", .str "lin"), ("darwin", .str "mac")] "Linux" rfl rfl).1
      (.str "lin") rfl,
   (detect_os_spec exampleConfig
      (.dict [("os_map", .dict [("linux", .str "lin"), ("darwin", .str "mac")]),
        ("arch_map", .dict [("x86_64", .str "amd64"), ("arm64", .str "arm64")])])
      [("linux", .str "lin"), ("darwin", .str "mac")] "Haiku" rfl rfl).2 rfl⟩

/-- C2: for every configuration whose system.arch_map exists,
detect_architecture returns the lower-cased raw architecture together with
the mapped value when the lower-cased raw value is a key of arch_map, and
with dkarch unknown (arch still the lower-cased raw value) when it is
not. -/
theorem detect_architecture_spec (cfg sys_val : Json)
    (amap : List (String × Json)) (a : String)
    (hs : cfg.pyGet "system" = .ok sys_val)
    (ha : sys_val.pyGet "arch_map" = .ok (.dict amap)) :
    (∀ v, List.lookup (pyLower a) amap = some v →
      detect_architecture cfg a =
        .ok (.dict [("arch", .str (pyLower a)), ("dkarch", v)])) ∧
    (List.lookup (pyLower a) amap = none →
      detect_architecture cfg a =
        .ok (.dict [("arch", .str (pyLower a)), ("dkarch", .str "unknown")])) := by
  constructor
  · intro v hv
    simp [detect_architecture, load_json_config, hs, ha, Json.pyGetD, hv]
  · intro hn
    simp [detect_architecture, load_json_config, hs, ha, Json.pyGetD, hn]

theorem detect_architecture_spec_witness :
    detect_architecture exampleConfig "x86_64" =
      .ok (.dict [("arch", .str "x86_64"), ("dkarch", .str "amd64")]) ∧
    detect_architecture exampleConfig "riscv64" =
      .ok (.dict [("arch", .str "riscv64"), ("dkarch", .str "unknown")]) :=
  ⟨(detect_architecture_spec exampleConfig
      (.dict [("os_map", .dict [("linux", .str "lin"), ("darwin", .str "mac")]),
        ("arch_map", .dict [("x86_64", .str "amd64"), ("arm64", .str "arm64")])])
      [("x86_64", .str "amd64"), ("arm64", .str "arm64")] "x86_64" rfl rfl).1
      (.str "amd64") rfl,
   (detect_architecture_spec exampleConfig
      (.dict [("os_map", .dict [("linux", .str "lin"), ("darwin", .str "mac")]),
        ("arch_map", .dict [("x86_64", .str "amd64"), ("arm64", .str "arm64")])])
      [("x86_64", .str "amd64"), ("arm64", .str "arm64")] "riscv64" rfl rfl).2 rfl⟩

/-- C3: for every configuration document that lacks the system key, both
detect_os and detect_architecture raise (the AttributeError of calling
.get on None propagates out of the re-raising except clause) instead of
returning a default result. -/
theorem detect_missing_system (es : List (String × Json)) (s a : String)
    (h : List.lookup "system" es = none) :
    detect_os (.dict es) s =
      .error (.attributeError "object has no attribute get") ∧
    detect_architecture (.dict es) a =
      .error (.attributeError "object has no attribute get") := by
  constructor
  · simp [detect_os, load_json_config, Json.pyGet, h]
  · simp [detect_architecture, load_json_config, Json.pyGet, h]

theorem detect_missing_system_witness :
    detect_os (.dict [("sistem", .str "oops")]) "Linux" =
      .error (.attributeError "object has no attribute get") ∧
    detect_architecture (.dict [("sistem", .str "oops")]) "x86_64" =
      .error (.attributeError "object has no attribute get") :=
  detect_missing_system [("sistem", .str "oops")] "Linux" "x86_64" rfl

/-- C9: the detect functions are pure and stateless: in any sequence of
calls, each call's result is the pure function of its own arguments alone,
independent of the calls before and after it, and two calls with the same
configuration and the same host string give the same result (both
occurrences of c below evaluate to runDetectCall c). -/
theorem runDetectCalls_stateless (pre mid post : List DetectCall)
    (c : DetectCall) :
    runDetectCalls (pre ++ c :: mid ++ c :: post) =
      runDetectCalls pre ++ runDetectCall c ::
        (runDetectCalls mid ++ runDetectCall c :: runDetectCalls post) := by
  simp [runDetectCalls]

/-- No exception escapes the try block of start_stack. -/
theorem start_stack_try_snd (env : StackEnv) (cf ef inst : String)
    (evs : List Event) : (start_stack_try env cf ef inst evs).2 = none := by
  rcases hc : env.compose_up cf ef with out | err | e
  · rcases hd : env.generate_dashboard_urls ef with u | e <;>
      simp [start_stack_try, hc, hd]
  · simp [start_stack_try, hc]
  · simp [start_stack_try, hc]

/-- When the launch attempt fails, the try block both prints a failure
report and logs one. -/
theorem start_stack_try_reports (env : StackEnv) (cf ef inst : String)
    (evs : List Event) (h : launchFails env cf ef = true) :
    (start_stack_try env cf ef inst evs).1.any isFailureReportPrint = true ∧
    (start_stack_try env cf ef inst evs).1.any isFailureLog = true := by
  unfold launchFails at h
  rcases hc : env.compose_up cf ef with out | err | e
  · rcases hd : env.generate_dashboard_urls ef with u | e
    · simp [start_stack_try, hc, hd, List.any_append, isFailureReportPrint,
        isFailureLog]
    · rw [hc, hd] at h; simp at h
  · simp [start_stack_try, hc, List.any_append, isFailureReportPrint,
      isFailureLog]
  · simp [start_stack_try, hc, List.any_append, isFailureReportPrint,
      isFailureLog]

/-- C4: once the confirmation is given or skipped, start_stack returns
normally whatever the launch attempt does (the non-zero exit of the compose
command and any other exception are caught), and a failing launch attempt
is reported both to the operator and to the log. -/
theorem start_stack_swallows_launch_failures (env : StackEnv)
    (cf ef inst : String) (skip : Bool)
    (h : skip = true ∨ env.ask_question_yn (confirmPrompt inst) = .ok true) :
    (start_stack env cf ef inst skip).2 = none ∧
    (launchFails env cf ef = true →
      (start_stack env cf ef inst skip).1.any isFailureReportPrint = true ∧
      (start_stack env cf ef inst skip).1.any isFailureLog = true) := by
  have hgoal : ∀ evs, (start_stack_try env cf ef inst evs).2 = none ∧
      (launchFails env cf ef = true →
        (start_stack_try env cf ef inst evs).1.any isFailureReportPrint = true ∧
        (start_stack_try env cf ef inst evs).1.any isFailureLog = true) :=
    fun evs => ⟨start_stack_try_snd env cf ef inst evs,
      fun hf => start_stack_try_reports env cf ef inst evs hf⟩
  rcases h with h | h
  · subst h
    simpa only [start_stack, if_true] using hgoal _
  · cases skip with
    | true => simpa only [start_stack, if_true] using hgoal _
    | false =>
        simp only [start_stack, Bool.false_eq_true, if_false, h]
        exact hgoal _

/-- A concrete environment whose compose command always exits non-zero. -/
def composeFailEnv : StackEnv where
  ask_question_yn := fun _ => .ok true
  compose_up := fun _ _ => .calledProcessError "exit status 1"
  generate_dashboard_urls := fun _ => .ok ()
  load_config := fun _ => .ok .null

theorem start_stack_swallows_launch_failures_witness :
    (true = true ∨ composeFailEnv.ask_question_yn (confirmPrompt "money4band") = .ok true) ∧
    (start_stack composeFailEnv "./docker-compose.yaml" "./.env" "money4band" true).2 = none ∧
    (launchFails composeFailEnv "./docker-compose.yaml" "./.env" = true →
      (start_stack composeFailEnv "./docker-compose.yaml" "./.env" "money4band" true).1.any isFailureReportPrint = true ∧
      (start_stack composeFailEnv "./docker-compose.yaml" "./.env" "money4band" true).1.any isFailureLog = true) :=
  ⟨Or.inl rfl,
   start_stack_swallows_launch_failures composeFailEnv "./docker-compose.yaml"
     "./.env" "money4band" true (Or.inl rfl)⟩

/-- attemptedInstances distributes over trace concatenation. -/
theorem attemptedInstances_append (xs ys : List Event) :
    attemptedInstances (xs ++ ys) =
      attemptedInstances xs ++ attemptedInstances ys := by
  simp [attemptedInstances, List.filterMap_append]

/-- The try block of start_stack makes no further start_stack call: it
adds no logStartStack event. -/
theorem start_stack_try_attempts (env : StackEnv) (cf ef inst : String)
    (evs : List Event) :
    attemptedInstances (start_stack_try env cf ef inst evs).1 =
      attemptedInstances evs := by
  rcases hc : env.compose_up cf ef with out | err | e
  · rcases hd : env.generate_dashboard_urls ef with u | e <;>
      simp [start_stack_try, hc, hd, attemptedInstances_append,
        attemptedInstances]
  · simp [start_stack_try, hc, attemptedInstances_append, attemptedInstances]
  · simp [start_stack_try, hc, attemptedInstances_append, attemptedInstances]

/-- Each start_stack call logs its starting line exactly once, whatever the
confirmation and the launch outcome do. -/
theorem start_stack_attempts (env : StackEnv) (cf ef inst : String)
    (skip : Bool) :
    attemptedInstances (start_stack env cf ef inst skip).1 = [inst] := by
  cases skip with
  | true =>
      rw [show start_stack env cf ef inst true =
        start_stack_try env cf ef inst
          [Event.logStartStack cf ef inst, Event.fixConsole] from rfl]
      rw [start_stack_try_attempts]
      simp [attemptedInstances]
  | false =>
      rcases ha : env.ask_question_yn (confirmPrompt inst) with e | b
      · simp [start_stack, ha, attemptedInstances]
      · cases b with
        | false => simp [start_stack, ha, attemptedInstances]
        | true =>
            rw [show start_stack env cf ef inst false =
              start_stack_try env cf ef inst
                ([Event.logStartStack cf ef inst, Event.fixConsole] ++
                  [Event.ask (confirmPrompt inst)]) from by
                simp [start_stack, ha]]
            rw [start_stack_try_attempts]
            simp [attemptedInstances]

/-- A valid directory entry contributes exactly one start_stack call to the
loop's trace; an invalid one contributes none. -/
theorem perInstanceTrace_attempts (fs : FS) (env : StackEnv) (dir : String)
    (skip : Bool) (inst : String) :
    attemptedInstances (perInstanceTrace fs env dir skip inst) =
      if isValidInstance fs dir inst then [inst] else [] := by
  by_cases hv : isValidInstance fs dir inst = true
  · rcases hr : (start_stack env (pathJoin (pathJoin dir inst)
        "docker-compose.yaml") (pathJoin (pathJoin dir inst) ".env") inst
        skip).2 with _ | e <;>
    · simp only [perInstanceTrace, hv, if_true, hr]
      rw [attemptedInstances_append, start_stack_attempts]
      simp [attemptedInstances]
  · simp [perInstanceTrace, hv, attemptedInstances]

/-- The loop over the directory listing attempts exactly the valid
entries, in listing order. -/
theorem multiLoop_attempts (fs : FS) (env : StackEnv) (dir : String)
    (skip : Bool) (l : List String) :
    attemptedInstances (multiLoop fs env dir skip l) =
      l.filter (isValidInstance fs dir) := by
  induction l with
  | nil => simp [multiLoop, attemptedInstances]
  | cons a rest ih =>
      rw [show multiLoop fs env dir skip (a :: rest) =
        perInstanceTrace fs env dir skip a ++
          multiLoop fs env dir skip rest from rfl]
      rw [attemptedInstances_append, perInstanceTrace_attempts, ih,
        List.filter_cons]
      by_cases hv : isValidInstance fs dir a = true <;> simp [hv]

/-- On an existing directory the launcher's trace is the banner, then the
loop's trace, then the closing message. -/
theorem start_multi_trace (fs : FS) (env : StackEnv) (dir : String)
    (skip : Bool) (h : fs.isdir dir = true) :
    (start_multi_proxy_instances fs env dir skip).1 =
      [Event.printStartingMulti] ++
        multiLoop fs env dir skip (fs.listdir dir) ++
        [Event.printAllMultiStarted] := by
  simp [start_multi_proxy_instances, h]

/-- On an existing directory the launcher attempts exactly the valid
entries, in listing order. -/
theorem start_multi_attempts_core (fs : FS) (env : StackEnv)
    (dir : String) (skip : Bool) (h : fs.isdir dir = true) :
    attemptedInstances (start_multi_proxy_instances fs env dir skip).1 =
      validInstances fs dir := by
  rw [start_multi_trace fs env dir skip h, attemptedInstances_append,
    attemptedInstances_append, multiLoop_attempts]
  simp [attemptedInstances, validInstances]

/-- On an existing directory the launcher raises nothing. -/
theorem start_multi_snd_core (fs : FS) (env : StackEnv) (dir : String)
    (skip : Bool) (h : fs.isdir dir = true) :
    (start_multi_proxy_instances fs env dir skip).2 = none := by
  simp [start_multi_proxy_instances, h]

/-- C5: on an existing instances directory, start_multi_proxy_instances
attempts a launch (one start_stack call) exactly for the directory entries
holding both a docker-compose.yaml file and a .env file, in listing order,
skips every other entry, and raises nothing. -/
theorem start_multi_attempts_valid (fs : FS) (env : StackEnv)
    (dir : String) (skip : Bool) (h : fs.isdir dir = true) :
    attemptedInstances (start_multi_proxy_instances fs env dir skip).1 =
      validInstances fs dir ∧
    (start_multi_proxy_instances fs env dir skip).2 = none :=
  ⟨start_multi_attempts_core fs env dir skip h,
   start_multi_snd_core fs env dir skip h⟩

/-- A filesystem with two instance directories: one complete, one missing
its .env file. -/
def twoInstanceFS : FS where
  isdir := fun p => p == "m4b_proxy_instances"
  listdir := fun p =>
    if p == "m4b_proxy_instances" then ["complete", "incomplete"] else []
  isfile := fun p =>
    p == "m4b_proxy_instances/complete/docker-compose.yaml" ||
    p == "m4b_proxy_instances/complete/.env" ||
    p == "m4b_proxy_instances/incomplete/docker-compose.yaml"

/-- An environment whose prompt always accepts and whose compose command
always succeeds. -/
def quietEnv : StackEnv where
  ask_question_yn := fun _ => .ok true
  compose_up := fun _ _ => .success ""
  generate_dashboard_urls := fun _ => .ok ()
  load_config := fun _ => .ok .null

theorem start_multi_attempts_valid_witness :
    twoInstanceFS.isdir "m4b_proxy_instances" = true ∧
    attemptedInstances (start_multi_proxy_instances twoInstanceFS quietEnv
      "m4b_proxy_instances" true).1 = ["complete"] ∧
    (start_multi_proxy_instances twoInstanceFS quietEnv
      "m4b_proxy_instances" true).2 = none := by
  have h := start_multi_attempts_valid twoInstanceFS quietEnv
    "m4b_proxy_instances" true rfl
  refine ⟨rfl, ?_, h.2⟩
  rw [h.1]
  rfl

/-- A failed start_stack call inside the loop is caught and logged by the
per-instance except clause. -/
theorem perInstance_logs_failure (fs : FS) (env : StackEnv) (dir : String)
    (skip : Bool) (inst : String) (e : PyExc)
    (hv : isValidInstance fs dir inst = true)
    (hf : (start_stack env (pathJoin (pathJoin dir inst)
      "docker-compose.yaml") (pathJoin (pathJoin dir inst) ".env") inst
      skip).2 = some e) :
    Event.logFailedInstance inst e.msg ∈
      perInstanceTrace fs env dir skip inst := by
  simp only [perInstanceTrace, hv, if_true, hf]
  simp

/-- Whatever one entry's trace contains is in the loop trace of any listing
containing that entry. -/
theorem multiLoop_mem (fs : FS) (env : StackEnv) (dir : String)
    (skip : Bool) (l : List String) (inst : String) (x : Event)
    (hmem : inst ∈ l) (hx : x ∈ perInstanceTrace fs env dir skip inst) :
    x ∈ multiLoop fs env dir skip l := by
  induction l with
  | nil => cases hmem
  | cons a rest ih =>
      rw [show multiLoop fs env dir skip (a :: rest) =
        perInstanceTrace fs env dir skip a ++
          multiLoop fs env dir skip rest from rfl]
      rcases List.mem_cons.mp hmem with hh | hh
      · subst hh
        exact List.mem_append.mpr (Or.inl hx)
      · exact List.mem_append.mpr (Or.inr (ih hh))

/-- C6: during start_multi_proxy_instances, an exception raised while
starting one instance is logged by the per-instance except clause and does
not prevent the launch attempts for the other instances: the attempted
list is still exactly the full list of valid entries, and no exception
escapes. -/
theorem start_multi_failure_isolated (fs : FS) (env : StackEnv)
    (dir : String) (skip : Bool) (inst : String) (e : PyExc)
    (hdir : fs.isdir dir = true)
    (hmem : inst ∈ fs.listdir dir)
    (hv : isValidInstance fs dir inst = true)
    (hf : (start_stack env (pathJoin (pathJoin dir inst)
      "docker-compose.yaml") (pathJoin (pathJoin dir inst) ".env") inst
      skip).2 = some e) :
    Event.logFailedInstance inst e.msg ∈
      (start_multi_proxy_instances fs env dir skip).1 ∧
    attemptedInstances (start_multi_proxy_instances fs env dir skip).1 =
      validInstances fs dir ∧
    (start_multi_proxy_instances fs env dir skip).2 = none := by
  refine ⟨?_, start_multi_attempts_core fs env dir skip hdir,
    start_multi_snd_core fs env dir skip hdir⟩
  rw [start_multi_trace fs env dir skip hdir]
  have hin := multiLoop_mem fs env dir skip (fs.listdir dir) inst
    (Event.logFailedInstance inst e.msg) hmem
    (perInstance_logs_failure fs env dir skip inst e hv hf)
  simp only [List.mem_append]
  exact Or.inl (Or.inr hin)

/-- A filesystem with two complete instance directories. -/
def twoValidFS : FS where
  isdir := fun p => p == "m4b_proxy_instances"
  listdir := fun p =>
    if p == "m4b_proxy_instances" then ["alpha", "beta"] else []
  isfile := fun _ => true

/-- An environment whose confirmation prompt raises EOFError, as when
stdin is closed. -/
def eofEnv : StackEnv where
  ask_question_yn := fun _ => .error (.eofError "EOF when reading a line")
  compose_up := fun _ _ => .success ""
  generate_dashboard_urls := fun _ => .ok ()
  load_config := fun _ => .ok .null

theorem start_multi_failure_isolated_witness :
    Event.logFailedInstance "alpha" "EOF when reading a line" ∈
      (start_multi_proxy_instances twoValidFS eofEnv "m4b_proxy_instances"
        false).1 ∧
    attemptedInstances (start_multi_proxy_instances twoValidFS eofEnv
      "m4b_proxy_instances" false).1 =
      validInstances twoValidFS "m4b_proxy_instances" ∧
    (start_multi_proxy_instances twoValidFS eofEnv "m4b_proxy_instances"
      false).2 = none :=
  start_multi_failure_isolated twoValidFS eofEnv "m4b_proxy_instances"
    false "alpha" (.eofError "EOF when reading a line") rfl (by decide)
    rfl rfl

/-- C7: on a path that is not an existing directory,
start_multi_proxy_instances performs no launch attempt, raises no
exception, and its only effect is the non-fatal warning log line. -/
theorem start_multi_no_dir (fs : FS) (env : StackEnv) (dir : String)
    (skip : Bool) (h : fs.isdir dir = false) :
    start_multi_proxy_instances fs env dir skip =
      ([Event.logWarnNoDir dir], none) ∧
    attemptedInstances (start_multi_proxy_instances fs env dir skip).1 =
      [] := by
  have h1 : start_multi_proxy_instances fs env dir skip =
      ([Event.logWarnNoDir dir], none) := by
    simp [start_multi_proxy_instances, h]
  exact ⟨h1, by rw [h1]; rfl⟩

/-- A filesystem with no directories at all. -/
def emptyFS : FS where
  isdir := fun _ => false
  listdir := fun _ => []
  isfile := fun _ => false

theorem start_multi_no_dir_witness :
    start_multi_proxy_instances emptyFS quietEnv "m4b_proxy_instances"
      true = ([Event.logWarnNoDir "m4b_proxy_instances"], none) ∧
    attemptedInstances (start_multi_proxy_instances emptyFS quietEnv
      "m4b_proxy_instances" true).1 = [] :=
  start_multi_no_dir emptyFS quietEnv "m4b_proxy_instances" true rfl

/-- The loop's trace is the in-order concatenation of the per-entry
traces. -/
theorem multiLoop_eq_flatMap (fs : FS) (env : StackEnv) (dir : String)
    (skip : Bool) (l : List String) :
    multiLoop fs env dir skip l =
      l.flatMap (perInstanceTrace fs env dir skip) := by
  induction l with
  | nil => rfl
  | cons a rest ih =>
      rw [show multiLoop fs env dir skip (a :: rest) =
        perInstanceTrace fs env dir skip a ++
          multiLoop fs env dir skip rest from rfl, ih, List.flatMap_cons]

/-- composeUps distributes over trace concatenation. -/
theorem composeUps_append (xs ys : List Event) :
    composeUps (xs ++ ys) = composeUps xs ++ composeUps ys := by
  simp [composeUps, List.filterMap_append]

/-- The try block runs the compose command exactly once. -/
theorem start_stack_try_composeUps (env : StackEnv) (cf ef inst : String)
    (evs : List Event) :
    composeUps (start_stack_try env cf ef inst evs).1 =
      composeUps evs ++ [(cf, ef)] := by
  rcases hc : env.compose_up cf ef with out | err | e
  · rcases hd : env.generate_dashboard_urls ef with u | e <;>
      simp [start_stack_try, hc, hd, composeUps_append, composeUps]
  · simp [start_stack_try, hc, composeUps_append, composeUps]
  · simp [start_stack_try, hc, composeUps_append, composeUps]

/-- One start_stack call runs the compose command at most once. -/
theorem start_stack_composeUps_le (env : StackEnv) (cf ef inst : String)
    (skip : Bool) :
    (composeUps (start_stack env cf ef inst skip).1).length ≤ 1 := by
  cases skip with
  | true =>
      rw [show start_stack env cf ef inst true =
        start_stack_try env cf ef inst
          [Event.logStartStack cf ef inst, Event.fixConsole] from rfl,
        start_stack_try_composeUps]
      simp [composeUps]
  | false =>
      rcases ha : env.ask_question_yn (confirmPrompt inst) with e | b
      · simp [start_stack, ha, composeUps]
      · cases b with
        | false => simp [start_stack, ha, composeUps]
        | true =>
            rw [show start_stack env cf ef inst false =
              start_stack_try env cf ef inst
                ([Event.logStartStack cf ef inst, Event.fixConsole] ++
                  [Event.ask (confirmPrompt inst)]) from by
                simp [start_stack, ha],
              start_stack_try_composeUps]
            simp [composeUps]

/-- Each directory entry contributes at most one compose invocation. -/
theorem perInstance_composeUps_le (fs : FS) (env : StackEnv) (dir : String)
    (skip : Bool) (inst : String) :
    (composeUps (perInstanceTrace fs env dir skip inst)).length ≤ 1 := by
  by_cases hv : isValidInstance fs dir inst = true
  · rcases hr : (start_stack env (pathJoin (pathJoin dir inst)
        "docker-compose.yaml") (pathJoin (pathJoin dir inst) ".env") inst
        skip).2 with _ | e <;>
    · simp only [perInstanceTrace, hv, if_true, hr]
      rw [composeUps_append]
      simpa [composeUps] using start_stack_composeUps_le env
        (pathJoin (pathJoin dir inst) "docker-compose.yaml")
        (pathJoin (pathJoin dir inst) ".env") inst skip
  · simp [perInstanceTrace, hv, composeUps]

/-- C10: launching is strictly sequential: on an existing directory the
launcher's trace is the concatenation, in directory-listing order, of each
entry's complete per-instance trace — the next entry's events begin only
after the previous entry's trace has ended — and each per-instance trace
holds at most one compose-up invocation, so at most one launch is in
progress at any point of the trace. -/
theorem start_multi_sequential (fs : FS) (env : StackEnv) (dir : String)
    (skip : Bool) (h : fs.isdir dir = true) :
    (start_multi_proxy_instances fs env dir skip).1 =
      [Event.printStartingMulti] ++
        (fs.listdir dir).flatMap (perInstanceTrace fs env dir skip) ++
        [Event.printAllMultiStarted] ∧
    ∀ inst, (composeUps (perInstanceTrace fs env dir skip inst)).length ≤
      1 := by
  refine ⟨?_, fun inst => perInstance_composeUps_le fs env dir skip inst⟩
  rw [start_multi_trace fs env dir skip h, multiLoop_eq_flatMap]

theorem start_multi_sequential_witness :
    twoValidFS.isdir "m4b_proxy_instances" = true ∧
    ((start_multi_proxy_instances twoValidFS quietEnv
        "m4b_proxy_instances" true).1 =
      [Event.printStartingMulti] ++
        (twoValidFS.listdir "m4b_proxy_instances").flatMap
          (perInstanceTrace twoValidFS quietEnv "m4b_proxy_instances"
            true) ++
        [Event.printAllMultiStarted] ∧
    ∀ inst, (composeUps (perInstanceTrace twoValidFS quietEnv
      "m4b_proxy_instances" true inst)).length ≤ 1) :=
  ⟨rfl, start_multi_sequential twoValidFS quietEnv "m4b_proxy_instances"
    true rfl⟩

/-- The text a JSON value shows as when interpolated into a message
(Python str); configuration names are strings in practice and show as
their content. -/
def Json.pyStr : Json → String
  | .str s => s
  | .bool true => "True"
  | .bool false => "False"
  | .null => "None"
  | .num n => toString n
  | .arr _ => "[list]"
  | .dict _ => "[dict]"

/-- `main` from src/utils/fn_startStack.py (lines 80-96): load the m4b and
user configurations, start the base stack with the configured project name
and the default compose and env files, then, when the proxies feature is
enabled in the user configuration, start the multi-proxy instances with
questions skipped. Every exception of the body is caught by one of the
three except clauses, logged and printed, and `main` returns normally. -/
def fn_main (fs : FS) (env : StackEnv)
    (app_config_path m4b_config_path user_config_path : String) :
    List Event × Option PyExc :=
  let step : List Event × Option PyExc :=
    match env.load_config m4b_config_path with
    | .error e => ([], some e)
    | .ok m4b_config =>
      match env.load_config user_config_path with
      | .error e => ([], some e)
      | .ok user_config =>
        match m4b_config.pyGetD "project" (.dict []) with
        | .error e => ([], some e)
        | .ok proj =>
          match proj.pyGetD "compose_project_name" (.str "money4band") with
          | .error e => ([], some e)
          | .ok base =>
            match start_stack env "./docker-compose.yaml" "./.env"
              base.pyStr false with
            | (evs1, some e) => (evs1, some e)
            | (evs1, none) =>
              match user_config.pySubscript "proxies" with
              | .error e => (evs1, some e)
              | .ok proxies =>
                match proxies.pyGetD "enabled" (.bool false) with
                | .error e => (evs1, some e)
                | .ok enabled =>
                  if enabled.truthy then
                    let r := start_multi_proxy_instances fs env
                      "m4b_proxy_instances" true
                    (evs1 ++ r.1, r.2)
                  else (evs1, none)
  match step with
  | (evs, none) => (evs, none)
  | (evs, some (.fileNotFound m)) =>
      (evs ++ [Event.logFileNotFound m, Event.printFileNotFound m], none)
  | (evs, some (.jsonDecode m)) =>
      (evs ++ [Event.logJsonError m, Event.printJsonError m], none)
  | (evs, some e) =>
      (evs ++ [Event.logMainUnexpected e.msg,
        Event.printMainUnexpected e.msg], none)

/-- The parameter names of `main` in src/utils/fn_startStack.py
(line 80). -/
def fn_startStack_main_params : List String :=
  ["app_config_path", "m4b_config_path", "user_config_path"]

/-- The keyword-argument names the `__main__` block passes to `main`
(line 125). -/
def fn_startStack_cli_kwargs : List String :=
  ["app_config_path", "m4b_config_path", "user_config_path",
   "skip_questions"]

/-- Python keyword-call compatibility for a function without a kwargs
catch-all: every keyword argument must name a declared parameter, else the
call raises TypeError before the body runs. -/
def kwargsAccepted (params kwargs : List String) : Bool :=
  kwargs.all fun k => params.contains k

/-- The message of the TypeError raised by the incompatible call. -/
def cliTypeErrorMsg : String :=
  "main() got an unexpected keyword argument skip_questions"

/-- The command-line arguments of the standalone launcher (the required
configuration paths and the skip-questions flag; the logging flags do not
influence the trace). -/
structure CliArgs where
  app_config : String
  m4b_config : String
  user_config : String
  skip_questions : Bool

/-- The `__main__` block of src/utils/fn_startStack.py (lines 122-135),
after argument parsing and logging setup: log the starting message, then
call `main` with the four keyword arguments of line 125. When the keyword
set is not accepted by `main`'s signature the call raises TypeError before
`main` runs; the block's generic except clause logs it and re-raises, so
the process terminates with the exception. -/
def fn_startStack_cli (fs : FS) (env : StackEnv) (args : CliArgs) :
    List Event × Option PyExc :=
  let evs0 := [Event.logScriptStart]
  if kwargsAccepted fn_startStack_main_params fn_startStack_cli_kwargs then
    match fn_main fs env args.app_config args.m4b_config
      args.user_config with
    | (evs, none) => (evs0 ++ evs ++ [Event.logScriptCompleted], none)
    | (evs, some (.fileNotFound m)) =>
        (evs0 ++ evs ++ [Event.logCliFileNotFound m],
          some (.fileNotFound m))
    | (evs, some (.jsonDecode m)) =>
        (evs0 ++ evs ++ [Event.logCliJsonError m], some (.jsonDecode m))
    | (evs, some e) =>
        (evs0 ++ evs ++ [Event.logCliUnexpected e.msg], some e)
  else
    (evs0 ++ [Event.logCliUnexpected cliTypeErrorMsg],
      some (.typeError cliTypeErrorMsg))

/-- C8: every standalone CLI invocation of the launcher fails before any
stack is started: the `__main__` block passes `skip_questions` as a keyword
that `main`'s three-parameter signature does not accept, so for all
argument values the call raises TypeError, which is logged and re-raised,
and no start_stack call and no compose invocation ever happens. -/
theorem fn_startStack_cli_always_fails (fs : FS) (env : StackEnv)
    (args : CliArgs) :
    fn_startStack_cli fs env args =
      ([Event.logScriptStart, Event.logCliUnexpected cliTypeErrorMsg],
        some (.typeError cliTypeErrorMsg)) ∧
    attemptedInstances (fn_startStack_cli fs env args).1 = [] ∧
    composeUps (fn_startStack_cli fs env args).1 = [] := by
  have hk : kwargsAccepted fn_startStack_main_params
      fn_startStack_cli_kwargs = false := by decide
  have h1 : fn_startStack_cli fs env args =
      ([Event.logScriptStart, Event.logCliUnexpected cliTypeErrorMsg],
        some (.typeError cliTypeErrorMsg)) := by
    simp [fn_startStack_cli, hk]
  exact ⟨h1, by rw [h1]; rfl, by rw [h1]; rfl⟩
